import Mathlib

/-!
Verification development for the authnet-portal repository: a shallow
embedding of the Authorize.Net gateway client (`src/authorizenet/authorizenet.go`
and the two further client revisions collected in `src/unnamed/part_000`) and
of the HTTP request router / capture reconciler (`src/main.go`), together with
theorems settling the specification claims about them.

Conventions of the embedding:
* Go byte slices (HTTP bodies) are modelled as `List Char` (one entry per rune;
  the UTF-8 byte-order mark 0xEF 0xBB 0xBF is the single rune U+FEFF).
* `encoding/json` marshalling/unmarshalling is external standard-library code;
  it is passed in as an explicit function parameter wherever a source function
  calls it.
* Fallible Go functions returning `(T, error)` become `Except String T`;
  a Go runtime panic (index out of range) is the `GoResult.panics` value.
* The network is modelled as an oracle giving, per request, either a transport
  failure (`MakeRequestError`) or the decoded response envelope.
-/

/-- The `{code, text}` entries of the `messages.message` array present in every
gateway response envelope (anonymous struct in the Go source). -/
structure GatewayMessage where
  code : String
  text : String
deriving DecidableEq, Repr

/-- The `messages` field carried by every gateway response envelope:
`{resultCode, message: [{code, text}]}`. -/
structure Messages where
  resultCode : String
  message : List GatewayMessage
deriving DecidableEq, Repr

/-- Outcome of running a Go function that can return a value, return an
error, or panic at runtime (index out of range on an empty slice). -/
inductive GoResult (α : Type) where
  | panics : GoResult α
  | err : String → GoResult α
  | ok : α → GoResult α
deriving DecidableEq, Repr

/-- The error cases `makeRequest` itself can produce before a response
envelope is decoded, one per `fmt.Errorf` site in the Go function
(`authorizenet.go:37-69`, `part_000:37-76`); each carries the detail string
of the wrapped error. -/
inductive MakeRequestError where
  | marshalRequest : String → MakeRequestError
  | createRequest : String → MakeRequestError
  | sendRequest : String → MakeRequestError
  | readResponse : String → MakeRequestError
  | unmarshalResponse : String → MakeRequestError
deriving DecidableEq, Repr

/-- The error text produced by each `fmt.Errorf` site of `makeRequest`. -/
def MakeRequestError.text : MakeRequestError → String
  | .marshalRequest d => "failed to marshal request: " ++ d
  | .createRequest d => "failed to create request: " ++ d
  | .sendRequest d => "failed to send request: " ++ d
  | .readResponse d => "failed to read response: " ++ d
  | .unmarshalResponse d => "failed to unmarshal response: " ++ d

/-- The single quote character, used by the `%q`-style quoting inside some
gateway-client fallback error strings. -/
def squo : String := String.mk [Char.ofNat 39]

/-- The UTF-8 byte-order mark as a rune: the three bytes `0xEF 0xBB 0xBF`
stripped by `bytes.TrimPrefix(body, bom)` decode to the one rune U+FEFF. -/
def bomChar : Char := Char.ofNat 0xFEFF

/-- Left half of Go `bytes.TrimSpace`: drop leading whitespace runes. -/
def goTrimLeft : List Char → List Char
  | [] => []
  | c :: cs => if c.isWhitespace then goTrimLeft cs else c :: cs

/-- Right half of Go `bytes.TrimSpace`: drop trailing whitespace runes. -/
def goTrimRight (l : List Char) : List Char :=
  (goTrimLeft l.reverse).reverse

/-- Go `bytes.TrimSpace`: drop leading and trailing whitespace runes. -/
def goTrimSpace (l : List Char) : List Char :=
  goTrimRight (goTrimLeft l)

/-- Go `bytes.TrimPrefix(body, bom)`: remove one leading byte-order mark
if present, otherwise return the body unchanged. -/
def goTrimBom : List Char → List Char
  | [] => []
  | c :: cs => if c = bomChar then cs else c :: cs

/-- Decode step of the current `makeRequest` (`part_000:56-75`, the client
revision the current `main.go` compiles against): trim whitespace from the
body; if the trimmed body is non-empty, strip a possible byte-order mark and
unmarshal it, surfacing an unmarshal failure (whose text embeds the offending
body) as an error; if it is empty, succeed leaving the response at its
zero value `zero`.  `unmarshal` stands for `encoding/json.Unmarshal`. -/
def makeRequestDecode {α : Type} (unmarshal : List Char → Option α) (zero : α)
    (body : List Char) : Except String α :=
  let trimmedBody := goTrimSpace body
  if trimmedBody.length > 0 then
    let bodyToParse := goTrimBom trimmedBody
    match unmarshal bodyToParse with
    | some v => Except.ok v
    | none => Except.error
        ("failed to unmarshal response: invalid character. Body received: "
          ++ String.mk bodyToParse)
  else
    Except.ok zero

/-- Decode step of the intermediate `makeRequest` revision
(`src/authorizenet/authorizenet.go:56-68`): strip a possible byte-order mark
and unconditionally unmarshal the body — there is no empty-body guard. -/
def makeRequestDecodeNoTrim {α : Type} (unmarshal : List Char → Option α)
    (body : List Char) : Except String α :=
  let stripped := goTrimBom body
  match unmarshal stripped with
  | some v => Except.ok v
  | none => Except.error "failed to unmarshal response: invalid character"

/-- Decode step of the oldest `makeRequest` revision (`part_000:721-750`):
unmarshal the body directly — neither a byte-order-mark strip nor an
empty-body guard. -/
def makeRequestDecodeNoBom {α : Type} (unmarshal : List Char → Option α)
    (body : List Char) : Except String α :=
  match unmarshal body with
  | some v => Except.ok v
  | none => Except.error "failed to unmarshal response: invalid character"

/-- Concrete stand-in for `encoding/json.Unmarshal` used in counterexample
and witness instantiations.  Exactly two documented behaviours of the real
function are relied upon: unmarshalling empty input fails
("unexpected end of JSON input"), and unmarshalling input that still starts
with a byte-order mark fails (a BOM is not a valid JSON token).  On all other
inputs it is an arbitrary total stub. -/
def unmarshalModel (s : List Char) : Option Messages :=
  if s = [] then none
  else if s.head? = some bomChar then none
  else some { resultCode := "Ok", message := [] }

/-! ## Gateway client data model (current client revision, `part_000:1-685`) -/

/-- `{name, transactionKey}` credential pair embedded in every outbound call. -/
structure MerchantAuthentication where
  name : String
  transactionKey : String
deriving DecidableEq, Repr

/-- The gateway client: static credential and target endpoint, no other state. -/
structure APIClient where
  auth : MerchantAuthentication
  endpoint : String
deriving DecidableEq, Repr

/-- `NewAPIClient(apiLoginID, transactionKey, endpoint)`. -/
def newAPIClient (apiLoginID transactionKey endpoint : String) : APIClient :=
  { auth := { name := apiLoginID, transactionKey := transactionKey }
    endpoint := endpoint }

/-- A raw card: `{cardNumber, expirationDate}`. -/
structure CreditCard where
  cardNumber : String
  expirationDate : String
deriving DecidableEq, Repr

/-- `{creditCard}` wrapper. -/
structure Payment where
  creditCard : CreditCard
deriving DecidableEq, Repr

/-- A postal address, optionally carrying its gateway-assigned id. -/
structure ShippingAddress where
  customerAddressId : String
  firstName : String
  lastName : String
  address : String
  city : String
  state : String
  zip : String
  country : String
deriving DecidableEq, Repr

/-- A gateway-held tokenized payment method. -/
structure PaymentProfile where
  customerPaymentProfileId : String
  customerType : String
  billTo : Option ShippingAddress
  payment : Payment
deriving DecidableEq, Repr

/-- A gateway customer profile (current client revision's field set). -/
structure CustomerProfile where
  customerProfileId : String
  merchantCustomerId : String
  description : String
  email : String
  profileType : String
  paymentProfiles : List PaymentProfile
  shipToList : List ShippingAddress
deriving DecidableEq, Repr

/-- `{limit, offset}` paging parameters of the list-profile-ids request. -/
structure Paging where
  limit : Nat
  offset : Nat
deriving DecidableEq, Repr

/-! ## Response envelopes (current client revision) -/

/-- Envelope decoded by `CreateCustomerProfile`. -/
structure CreateCustomerProfileResponse where
  customerProfileId : String
  messages : Messages
deriving DecidableEq, Repr

/-- Envelope decoded by `GetCustomerProfile`. -/
structure GetCustomerProfileResponse where
  profile : CustomerProfile
  messages : Messages
deriving DecidableEq, Repr

/-- Envelope decoded by each page of `GetAllCustomerProfileIds`. -/
structure GetCustomerProfileIdsResponse where
  ids : List String
  totalNumInResultSet : Int
  messages : Messages
deriving DecidableEq, Repr

/-- One `{code, description}` entry inside a transaction response. -/
structure TxMessage where
  code : String
  description : String
deriving DecidableEq, Repr

/-- One `{errorCode, errorText}` entry inside a transaction response. -/
structure TxError where
  errorCode : String
  errorText : String
deriving DecidableEq, Repr

/-- The `transactionResponse` payload of a transaction call. -/
structure FullTransactionResponse where
  responseCode : String
  authCode : String
  avsResultCode : String
  cvvResultCode : String
  transId : String
  messages : List TxMessage
  errors : List TxError
deriving DecidableEq, Repr

/-- Envelope decoded by the charge / authorize / capture operations. -/
structure CreateTransactionResponse where
  transactionResponse : FullTransactionResponse
  messages : Messages
deriving DecidableEq, Repr

/-- Envelope carrying only a `messages` block (update-profile style calls). -/
structure StatusOnlyResponse where
  messages : Messages
deriving DecidableEq, Repr

/-- Envelope decoded by `AddShippingAddress`. -/
structure CreateCustomerShippingAddressResponse where
  customerAddressId : String
  messages : Messages
deriving DecidableEq, Repr

/-- Envelope decoded by `AddPaymentProfile`. -/
structure AddPaymentProfileResponse where
  customerPaymentProfileId : String
  messages : Messages
deriving DecidableEq, Repr

/-! ## Result classification of each operation (current client revision)

Each function below is the tail of the corresponding Go method: the code run
after `makeRequest` has produced the decoded response envelope, mapping the
envelope to the method's `(value, error)` return. -/

/-- `CreateCustomerProfile` (`part_000:105-129`; identically
`authorizenet.go:96-120`). -/
def createCustomerProfileResult (r : CreateCustomerProfileResponse) :
    Except String String :=
  if r.messages.resultCode ≠ "Ok" then
    match r.messages.message with
    | m :: _ => Except.error ("API error " ++ m.text ++ " " ++ m.code)
    | [] => Except.error ("API error: Request failed with ResultCode "
        ++ squo ++ r.messages.resultCode ++ squo
        ++ " but no message was provided")
  else
    Except.ok r.customerProfileId

/-- `GetCustomerProfile` (`part_000:148-175`): returns the nested profile. -/
def getCustomerProfileResult (r : GetCustomerProfileResponse) :
    Except String CustomerProfile :=
  if r.messages.resultCode ≠ "Ok" then
    match r.messages.message with
    | m :: _ => Except.error ("API error: " ++ m.text)
    | [] => Except.error "API error: unknown error from Authorize.Net"
  else
    Except.ok r.profile

/-- Per-page classification inside `GetAllCustomerProfileIds`
(`part_000:226-231`; identically `authorizenet.go:215-220`). -/
def profileIdsPageResult (r : GetCustomerProfileIdsResponse) :
    Except String (List String) :=
  if r.messages.resultCode ≠ "Ok" then
    match r.messages.message with
    | m :: _ => Except.error ("API error: " ++ m.text)
    | [] => Except.error "API error: unknown error"
  else
    Except.ok r.ids

/-- `ChargeCustomerProfile` (`part_000:315-372`). -/
def chargeCustomerProfileResult (r : CreateTransactionResponse) :
    Except String FullTransactionResponse :=
  if r.messages.resultCode ≠ "Ok" then
    match r.messages.message with
    | m :: _ => Except.error ("API error: " ++ m.text)
    | [] => Except.error "API error: unknown error"
  else
    Except.ok r.transactionResponse

/-- `AuthorizeCustomerProfile` (`part_000:374-415`). -/
def authorizeCustomerProfileResult (r : CreateTransactionResponse) :
    Except String FullTransactionResponse :=
  if r.messages.resultCode ≠ "Ok" then
    match r.messages.message with
    | m :: _ => Except.error ("API error: " ++ m.text)
    | [] => Except.error "API error: unknown error"
  else
    Except.ok r.transactionResponse

/-- `CapturePriorAuthTransaction` (`part_000:417-446`). -/
def capturePriorAuthTransactionResult (r : CreateTransactionResponse) :
    Except String FullTransactionResponse :=
  if r.messages.resultCode ≠ "Ok" then
    match r.messages.message with
    | m :: _ => Except.error ("API error: " ++ m.text)
    | [] => Except.error "API error: unknown error"
  else
    Except.ok r.transactionResponse

/-- `UpdateCustomerProfile` (`part_000:459-493`): returns no payload. -/
def updateCustomerProfileResult (r : StatusOnlyResponse) :
    Except String Unit :=
  if r.messages.resultCode ≠ "Ok" then
    match r.messages.message with
    | m :: _ => Except.error ("API error: " ++ m.text)
    | [] => Except.error "API error: unknown error"
  else
    Except.ok ()

/-- `AddShippingAddress` (`part_000:523-549`). -/
def addShippingAddressResult (r : CreateCustomerShippingAddressResponse) :
    Except String String :=
  if r.messages.resultCode ≠ "Ok" then
    match r.messages.message with
    | m :: _ => Except.error ("API error: " ++ m.text
        ++ " (Code: " ++ m.code ++ ")")
    | [] => Except.error ("API error: add shipping address failed with ResultCode "
        ++ squo ++ r.messages.resultCode ++ squo)
  else
    Except.ok r.customerAddressId

/-- `UpdateBillingAddress` (`part_000:597-626`). -/
def updateBillingAddressResult (r : StatusOnlyResponse) :
    Except String Unit :=
  if r.messages.resultCode ≠ "Ok" then
    match r.messages.message with
    | m :: _ => Except.error ("API error: " ++ m.text
        ++ " (Code: " ++ m.code ++ ")")
    | [] => Except.error ("API error: update billing failed with ResultCode "
        ++ squo ++ r.messages.resultCode ++ squo)
  else
    Except.ok ()

/-- `AddPaymentProfile` (`part_000:650-685`). -/
def addPaymentProfileResult (r : AddPaymentProfileResponse) :
    Except String String :=
  if r.messages.resultCode ≠ "Ok" then
    match r.messages.message with
    | m :: _ => Except.error ("API error: " ++ m.text)
    | [] => Except.error "API error: unknown error"
  else
    Except.ok r.customerPaymentProfileId

/-- `DeleteShippingAddress` (`part_000:557-579`): the response is decoded
into an `interface{}` placeholder and never inspected — in particular
`messages.resultCode` is never compared against the success sentinel.
Whatever envelope the gateway sent (modelled here as the `messages`-only
envelope it actually returns), the method returns success whenever
`makeRequest` itself did; its own comment reads "If it returns nil, the
delete was successful." -/
def deleteShippingAddressResult (_r : StatusOnlyResponse) :
    Except String Unit :=
  Except.ok ()

/-! ## Legacy client revision (`part_000:686-1020`) -/

/-- `CreateCustomerProfile` of the oldest client revision
(`part_000:773-786`): the success sentinel is the literal `"OK"`, and on any
other result code the first message is indexed unconditionally —
`response.Messages.Message[0]` panics at runtime when the message list is
empty. -/
def createCustomerProfileResultV0 (r : CreateCustomerProfileResponse) :
    GoResult String :=
  if r.messages.resultCode ≠ "OK" then
    match r.messages.message with
    | m :: _ => GoResult.err ("API error: " ++ m.text)
    | [] => GoResult.panics
  else
    GoResult.ok r.customerProfileId

/-! ## Operations composed with the transport layer

An operation's network interaction is an oracle value of type
`Except MakeRequestError env`: the outcome of `makeRequest` for that call
(transport/decode failure, or the decoded envelope). -/

/-- `CapturePriorAuthTransaction` (`part_000:417-446`) end to end: a
`makeRequest` failure is returned as-is (its error text), otherwise the
envelope is classified. -/
def capturePriorAuthTransactionOp
    (env : Except MakeRequestError CreateTransactionResponse) :
    Except String FullTransactionResponse :=
  match env with
  | Except.error e => Except.error e.text
  | Except.ok response => capturePriorAuthTransactionResult response

/-- `GetCustomerProfile` (`part_000:148-175`) end to end. -/
def getCustomerProfileOp
    (env : Except MakeRequestError GetCustomerProfileResponse) :
    Except String CustomerProfile :=
  match env with
  | Except.error e => Except.error e.text
  | Except.ok response => getCustomerProfileResult response

/-! ## Pagination (`GetAllCustomerProfileIds`, `part_000:199-243` =
`authorizenet.go:188-232`)

The sequence of gateway answers is modelled as the list of per-call
`makeRequest` outcomes, consumed one per loop iteration.  The function also
returns the trace of `Paging` values it put in successive requests, so that
theorems can speak about the offsets actually requested. -/

/-- The loop body of `GetAllCustomerProfileIds`: request with the current
paging, fail on a transport error (wrapped as in the source) or a non-"Ok"
page, append the page's ids, stop after the first short page, otherwise
continue with the offset advanced by the limit.  An exhausted oracle list
(which cannot arise for the call traces quantified over in the theorems,
since the gateway always answers) ends the loop with the ids accumulated
so far. -/
def getAllIdsLoop (limit offset : Nat) (acc : List String) :
    List (Except MakeRequestError GetCustomerProfileIdsResponse) →
    List Paging × Except String (List String)
  | [] => ([], Except.ok acc)
  | p :: rest =>
    match p with
    | Except.error e =>
        ([{ limit := limit, offset := offset }],
         Except.error ("failed to make API request: " ++ e.text))
    | Except.ok response =>
      if response.messages.resultCode ≠ "Ok" then
        match response.messages.message with
        | m :: _ =>
            ([{ limit := limit, offset := offset }],
             Except.error ("API error: " ++ m.text))
        | [] =>
            ([{ limit := limit, offset := offset }],
             Except.error "API error: unknown error")
      else
        let acc2 := acc ++ response.ids
        if response.ids.length < limit then
          ([{ limit := limit, offset := offset }], Except.ok acc2)
        else
          let next := getAllIdsLoop limit (offset + limit) acc2 rest
          ({ limit := limit, offset := offset } :: next.1, next.2)

/-- `GetAllCustomerProfileIds`: page size 1000, starting offset 1. -/
def getAllCustomerProfileIds
    (pages : List (Except MakeRequestError GetCustomerProfileIdsResponse)) :
    List Paging × Except String (List String) :=
  getAllIdsLoop 1000 1 [] pages

/-! ## `GetAllCustomerProfiles` (`part_000:245-263`) -/

/-- The fetch loop of `GetAllCustomerProfiles`: fetch each id in order,
accumulating profiles, returning the first failure. -/
def getAllProfilesLoop (fetch : String → Except String CustomerProfile)
    (acc : List CustomerProfile) : List String →
    Except String (List CustomerProfile)
  | [] => Except.ok acc
  | id :: rest =>
    match fetch id with
    | Except.error e => Except.error e
    | Except.ok profile => getAllProfilesLoop fetch (acc ++ [profile]) rest

/-- `GetAllCustomerProfiles`: fetch the id list, then fetch each profile.
`profEnv` gives, per profile id, the `makeRequest` outcome of the
corresponding `GetCustomerProfile` call. -/
def getAllCustomerProfiles
    (pages : List (Except MakeRequestError GetCustomerProfileIdsResponse))
    (profEnv : String → Except MakeRequestError GetCustomerProfileResponse) :
    Except String (List CustomerProfile) :=
  match (getAllCustomerProfileIds pages).2 with
  | Except.error e => Except.error e
  | Except.ok ids =>
      getAllProfilesLoop (fun id => getCustomerProfileOp (profEnv id)) [] ids

/-- The composition described by the spec sentence for "list all profiles":
fetch the full id list, then fetch the full profile for each id sequentially
in id-list order, failing the whole aggregate on the first failure.  Stated
independently of the loop above, as the sequential fold of the spec's words. -/
def specFetchEach (fetch : String → Except String CustomerProfile) :
    List String → Except String (List CustomerProfile)
  | [] => Except.ok []
  | id :: rest =>
    match fetch id with
    | Except.error e => Except.error e
    | Except.ok profile =>
      match specFetchEach fetch rest with
      | Except.error e => Except.error e
      | Except.ok profiles => Except.ok (profile :: profiles)

/-- Spec-side "list all profiles" composition. -/
def specGetAllCustomerProfiles
    (pages : List (Except MakeRequestError GetCustomerProfileIdsResponse))
    (profEnv : String → Except MakeRequestError GetCustomerProfileResponse) :
    Except String (List CustomerProfile) :=
  match (getAllCustomerProfileIds pages).2 with
  | Except.error e => Except.error e
  | Except.ok ids =>
      specFetchEach (fun id => getCustomerProfileOp (profEnv id)) ids

/-! ## Request router / reconciler (`src/main.go`)

Local JSON body decoding is external (`encoding/json`); a handler receives
the decoded request as `Option req` (`none` = the decoder returned an error).
HTTP responses are a status code plus a body; the body is either plain text
written by `http.Error`, a JSON-encoded `ApiResponse`, or (on the capture
success path) the raw pre-marshalled byte string. -/

/-- The local response envelope `ApiResponse` (`main.go:121-126`).  An
`action` of `""` stands for the omitted (`omitempty`) field. -/
structure ApiResponse where
  isSuccess : Bool
  message : String
  action : String
  transaction : Option FullTransactionResponse
deriving DecidableEq, Repr

/-- An HTTP response body as produced by the handlers. -/
inductive HttpBody where
  | text : String → HttpBody
  | api : ApiResponse → HttpBody
  | raw : String → HttpBody
deriving DecidableEq, Repr

/-- Decoded `CaptureRequest` (`main.go:142-145`). -/
structure CaptureRequest where
  refTransId : String
  amount : String
deriving DecidableEq, Repr

/-- Decoded `ChargeRequest` (`main.go:133-140`). -/
structure ChargeRequest where
  profileId : String
  paymentProfileId : String
  amount : String
  invoiceNumber : String
  description : String
  transactionType : String
deriving DecidableEq, Repr

/-- The arguments of one `ChargeCustomerProfile` call, in call-site order
(`main.go:260` passes `req.ProfileID, req.PaymentProfileID, req.Amount,
req.InvoiceNumber, req.TransactionType, req.Description`). -/
structure ChargeCall where
  profileId : String
  paymentProfileId : String
  amount : String
  invoiceNumber : String
  transactionType : String
  description : String
deriving DecidableEq, Repr

/-- The three bind parameters of the single capture-reconciliation
`UPDATE header ...` statement (`main.go:372-380`): `$1` the serialized
response appended to `authorizenet_results`, `$2` the new value of
`transactionnum`, `$3` the `WHERE transactionnum = $3` lookup key. -/
structure DbCall where
  payload : String
  transactionnum : String
  whereKey : String
deriving DecidableEq, Repr

/-- Result of one run of the capture handler: HTTP status and body, the
gateway capture calls issued (as `(refTransId, amount)` pairs) and the
database updates issued. -/
structure CaptureHandlerResult where
  status : Nat
  body : HttpBody
  gwCalls : List (String × String)
  dbCalls : List DbCall
deriving DecidableEq, Repr

/-- The fixed reconciliation-failure message (`main.go:387`). -/
def criticalMsg : String :=
  "CRITICAL:Payment was processed but failed to update order record."

/-- The `ApiResponse` marshalled on the capture success path
(`main.go:353-358`). -/
def captureSuccessApiResponse (fullResponse : FullTransactionResponse) :
    ApiResponse :=
  { isSuccess := true
    message := "Previously authorized transaction captured successfully."
    action := "priorAuthCaptureTransaction"
    transaction := some fullResponse }

/-- `capturePriorAuthTransactionHandler` (`main.go:326-396`).
`decoded` is the decoded request body, `gwEnv` the `makeRequest` outcome of
the capture call for given `(refTransId, amount)`, `marshal` stands for
`json.Marshal` on `ApiResponse`, and `dbExec` tells whether a given
`db.Exec` of the update statement succeeds. -/
def capturePriorAuthTransactionHandler
    (decoded : Option CaptureRequest)
    (gwEnv : String → String → Except MakeRequestError CreateTransactionResponse)
    (marshal : ApiResponse → Option String)
    (dbExec : DbCall → Bool) : CaptureHandlerResult :=
  match decoded with
  | none => { status := 400, body := HttpBody.text "Invalid request body"
              gwCalls := [], dbCalls := [] }
  | some req =>
    if req.refTransId = "" then
      { status := 400
        body := HttpBody.text "V2 Error: Missing required field: refTransId"
        gwCalls := [], dbCalls := [] }
    else
      match capturePriorAuthTransactionOp (gwEnv req.refTransId req.amount) with
      | Except.error e =>
          { status := 500
            body := HttpBody.api
              { isSuccess := false, message := e, action := ""
                transaction := none }
            gwCalls := [(req.refTransId, req.amount)], dbCalls := [] }
      | Except.ok fullResponse =>
          match marshal (captureSuccessApiResponse fullResponse) with
          | none =>
              { status := 500
                body := HttpBody.api
                  { isSuccess := false
                    message := "Failed to process transaction response internally."
                    action := "", transaction := none }
                gwCalls := [(req.refTransId, req.amount)], dbCalls := [] }
          | some responseBytes =>
              let call : DbCall :=
                { payload := responseBytes
                  transactionnum := fullResponse.transId
                  whereKey := req.refTransId }
              if dbExec call then
                { status := 201, body := HttpBody.raw responseBytes
                  gwCalls := [(req.refTransId, req.amount)], dbCalls := [call] }
              else
                { status := 500
                  body := HttpBody.api
                    { isSuccess := false, message := criticalMsg, action := ""
                      transaction := none }
                  gwCalls := [(req.refTransId, req.amount)], dbCalls := [call] }

/-- Result of one run of the charge handler. -/
structure ChargeHandlerResult where
  status : Nat
  body : HttpBody
  gwCalls : List ChargeCall
deriving DecidableEq, Repr

/-- `chargeCustomerProfileHandler` (`main.go:241-288`): after a successful
decode there is no required-field validation — the gateway is called with
whatever fields the request carried.  `gw` is the outcome of
`client.ChargeCustomerProfile` for the given call. -/
def chargeCustomerProfileHandler (decoded : Option ChargeRequest)
    (gw : ChargeCall → Except String FullTransactionResponse) :
    ChargeHandlerResult :=
  match decoded with
  | none => { status := 400, body := HttpBody.text "Invalid request body"
              gwCalls := [] }
  | some req =>
    let callArgs : ChargeCall :=
      { profileId := req.profileId
        paymentProfileId := req.paymentProfileId
        amount := req.amount
        invoiceNumber := req.invoiceNumber
        transactionType := req.transactionType
        description := req.description }
    match gw callArgs with
    | Except.error e =>
        { status := 500
          body := HttpBody.api
            { isSuccess := false, message := e, action := ""
              transaction := none }
          gwCalls := [callArgs] }
    | Except.ok tx =>
        let action :=
          if req.transactionType = "authOnlyTransaction" then
            "authOnlyTransaction"
          else
            "authCaptureTransaction"
        { status := 201
          body := HttpBody.api
            { isSuccess := true, message := "Transaction successful."
              action := action, transaction := some tx }
          gwCalls := [callArgs] }

/-- Result of one run of the authorize handler; gateway calls are recorded
as `(profileId, paymentProfileId, amount)` triples. -/
structure AuthorizeHandlerResult where
  status : Nat
  body : HttpBody
  gwCalls : List (String × String × String)
deriving DecidableEq, Repr

/-- `authorizeCustomerProfileHandler` (`main.go:290-324`): validates the
presence of all three required fields before calling the gateway. -/
def authorizeCustomerProfileHandler (decoded : Option ChargeRequest)
    (gw : String → String → String → Except String FullTransactionResponse) :
    AuthorizeHandlerResult :=
  match decoded with
  | none => { status := 400, body := HttpBody.text "Invalid request body"
              gwCalls := [] }
  | some req =>
    if req.profileId = "" ∨ req.paymentProfileId = "" ∨ req.amount = "" then
      { status := 400
        body := HttpBody.text
          "Missing required fields: profileId, paymentProfileId, or amount"
        gwCalls := [] }
    else
      match gw req.profileId req.paymentProfileId req.amount with
      | Except.error e =>
          { status := 500
            body := HttpBody.api
              { isSuccess := false, message := e, action := ""
                transaction := none }
            gwCalls := [(req.profileId, req.paymentProfileId, req.amount)] }
      | Except.ok tx =>
          { status := 201
            body := HttpBody.api
              { isSuccess := true
                message := "Transaction authorized successfully."
                action := "AUTH_ONLY", transaction := some tx }
            gwCalls := [(req.profileId, req.paymentProfileId, req.amount)] }

/-! ## Outbound request envelopes (credential embedding, current client)

Each operation nests its request type under the single operation-name key and
embeds `c.Auth`.  The wrapper structures below mirror those envelopes; the
builder functions mirror the struct literals in each Go method.  The sole key
nesting is the structure itself (one field named after the operation). -/

/-- `createCustomerProfileRequest` payload (`part_000:88-92`). -/
structure CreateCustomerProfileRequest where
  merchantAuthentication : MerchantAuthentication
  profile : CustomerProfile
  validationMode : String
deriving DecidableEq, Repr

/-- The envelope `{"createCustomerProfileRequest": ...}`. -/
structure CreateCustomerProfileWrapper where
  createCustomerProfileRequest : CreateCustomerProfileRequest
deriving DecidableEq, Repr

/-- The request built by `CreateCustomerProfile` (`part_000:106-114`). -/
def createCustomerProfileWrapper (c : APIClient) (profile : CustomerProfile)
    (validationMode : String) : CreateCustomerProfileWrapper :=
  { createCustomerProfileRequest :=
      { merchantAuthentication := c.auth
        profile := profile
        validationMode := validationMode } }

/-- `getCustomerProfileRequest` payload (`part_000:131-134`). -/
structure GetCustomerProfileRequest where
  merchantAuthentication : MerchantAuthentication
  customerProfileId : String
deriving DecidableEq, Repr

/-- The envelope `{"getCustomerProfileRequest": ...}`. -/
structure GetCustomerProfileWrapper where
  getCustomerProfileRequest : GetCustomerProfileRequest
deriving DecidableEq, Repr

/-- The request built by `GetCustomerProfile` (`part_000:151-158`). -/
def getCustomerProfileWrapper (c : APIClient) (profileID : String) :
    GetCustomerProfileWrapper :=
  { getCustomerProfileRequest :=
      { merchantAuthentication := c.auth
        customerProfileId := profileID } }

/-- `getCustomerProfileIdsRequest` payload (`part_000:182-185`). -/
structure GetCustomerProfileIdsRequest where
  merchantAuthentication : MerchantAuthentication
  paging : Option Paging
deriving DecidableEq, Repr

/-- The envelope `{"getCustomerProfileIdsRequest": ...}`. -/
structure GetCustomerProfileIdsWrapper where
  getCustomerProfileIdsRequest : GetCustomerProfileIdsRequest
deriving DecidableEq, Repr

/-- The per-page request built inside `GetAllCustomerProfileIds`
(`part_000:205-215`). -/
def getCustomerProfileIdsWrapper (c : APIClient) (limit offset : Nat) :
    GetCustomerProfileIdsWrapper :=
  { getCustomerProfileIdsRequest :=
      { merchantAuthentication := c.auth
        paging := some { limit := limit, offset := offset } } }

/-- The nested `profile` block of a profile-charging transaction request. -/
structure TransactionProfileBlock where
  customerProfileId : String
  paymentProfileId : String
deriving DecidableEq, Repr

/-- The `order` block (`part_000:265-268`). -/
structure OrderBlock where
  invoiceNumber : String
  description : String
deriving DecidableEq, Repr

/-- `transactionRequest` payload (`part_000:270-281`). -/
structure TransactionRequestType where
  transactionType : String
  amount : String
  profile : Option TransactionProfileBlock
  order : Option OrderBlock
  refTransId : String
deriving DecidableEq, Repr

/-- `createTransactionRequest` payload (`part_000:299-302`). -/
structure CreateTransactionRequest where
  merchantAuthentication : MerchantAuthentication
  transactionRequest : TransactionRequestType
deriving DecidableEq, Repr

/-- The envelope `{"createTransactionRequest": ...}`. -/
structure CreateTransactionWrapper where
  createTransactionRequest : CreateTransactionRequest
deriving DecidableEq, Repr

/-- The request built by `ChargeCustomerProfile` (`part_000:315-356`):
the transaction type falls back to `authCaptureTransaction` unless the
`transactionType` argument is exactly `authOnlyTransaction`, and the order
block is attached only when an invoice number is present. -/
def chargeCustomerProfileWrapper (c : APIClient)
    (profileID paymentProfileID amount invoiceNumber description
      transactionType : String) : CreateTransactionWrapper :=
  let finalTransactionType :=
    if transactionType = "authOnlyTransaction" then "authOnlyTransaction"
    else "authCaptureTransaction"
  { createTransactionRequest :=
      { merchantAuthentication := c.auth
        transactionRequest :=
          { transactionType := finalTransactionType
            amount := amount
            profile := some { customerProfileId := profileID
                              paymentProfileId := paymentProfileID }
            order :=
              if invoiceNumber ≠ "" then
                some { invoiceNumber := invoiceNumber
                       description := description }
              else
                none
            refTransId := "" } } }

/-- The request built by `AuthorizeCustomerProfile` (`part_000:374-402`). -/
def authorizeCustomerProfileWrapper (c : APIClient)
    (profileID paymentProfileID amount : String) : CreateTransactionWrapper :=
  { createTransactionRequest :=
      { merchantAuthentication := c.auth
        transactionRequest :=
          { transactionType := "authOnlyTransaction"
            amount := amount
            profile := some { customerProfileId := profileID
                              paymentProfileId := paymentProfileID }
            order := none
            refTransId := "" } } }

/-- The request built by `CapturePriorAuthTransaction` (`part_000:417-432`):
no customer profile, the prior transaction reference instead. -/
def capturePriorAuthTransactionWrapper (c : APIClient)
    (refTransId amount : String) : CreateTransactionWrapper :=
  { createTransactionRequest :=
      { merchantAuthentication := c.auth
        transactionRequest :=
          { transactionType := "priorAuthCaptureTransaction"
            amount := amount
            profile := none
            order := none
            refTransId := refTransId } } }

/-- `updateCustomerProfileRequest` payload (`part_000:448-457`). -/
structure UpdateCustomerProfileRequest where
  merchantAuthentication : MerchantAuthentication
  customerProfileId : String
  email : String
  description : String
deriving DecidableEq, Repr

/-- The envelope `{"updateCustomerProfileRequest": ...}`. -/
structure UpdateCustomerProfileWrapper where
  updateCustomerProfileRequest : UpdateCustomerProfileRequest
deriving DecidableEq, Repr

/-- The request built by `UpdateCustomerProfile` (`part_000:460-471`). -/
def updateCustomerProfileWrapper (c : APIClient)
    (profileID email description : String) : UpdateCustomerProfileWrapper :=
  { updateCustomerProfileRequest :=
      { merchantAuthentication := c.auth
        customerProfileId := profileID
        email := email
        description := description } }

/-- `createCustomerShippingAddressRequest` payload (`part_000:506-510`). -/
structure CreateCustomerShippingAddressRequest where
  merchantAuthentication : MerchantAuthentication
  customerProfileId : String
  address : ShippingAddress
deriving DecidableEq, Repr

/-- The envelope `{"createCustomerShippingAddressRequest": ...}`. -/
structure CreateCustomerShippingAddressWrapper where
  createCustomerShippingAddressRequest : CreateCustomerShippingAddressRequest
deriving DecidableEq, Repr

/-- The request built by `AddShippingAddress` (`part_000:526-534`). -/
def addShippingAddressWrapper (c : APIClient) (profileID : String)
    (address : ShippingAddress) : CreateCustomerShippingAddressWrapper :=
  { createCustomerShippingAddressRequest :=
      { merchantAuthentication := c.auth
        customerProfileId := profileID
        address := address } }

/-- `deleteCustomerShippingAddressRequest` payload (`part_000:551-555`). -/
structure DeleteCustomerShippingAddressRequest where
  merchantAuthentication : MerchantAuthentication
  customerProfileId : String
  customerAddressId : String
deriving DecidableEq, Repr

/-- The envelope `{"deleteCustomerShippingAddressRequest": ...}`. -/
structure DeleteCustomerShippingAddressWrapper where
  deleteCustomerShippingAddressRequest : DeleteCustomerShippingAddressRequest
deriving DecidableEq, Repr

/-- The request built by `DeleteShippingAddress` (`part_000:557-566`). -/
def deleteShippingAddressWrapper (c : APIClient)
    (profileID addressID : String) : DeleteCustomerShippingAddressWrapper :=
  { deleteCustomerShippingAddressRequest :=
      { merchantAuthentication := c.auth
        customerProfileId := profileID
        customerAddressId := addressID } }

/-- `updateCustomerPaymentProfileRequest` payload (`part_000:581-585`). -/
structure UpdateCustomerPaymentProfileRequest where
  merchantAuthentication : MerchantAuthentication
  customerProfileId : String
  paymentProfile : PaymentProfile
deriving DecidableEq, Repr

/-- The envelope `{"updateCustomerPaymentProfileRequest": ...}`. -/
structure UpdateCustomerPaymentProfileWrapper where
  updateCustomerPaymentProfileRequest : UpdateCustomerPaymentProfileRequest
deriving DecidableEq, Repr

/-- The request built by `UpdateBillingAddress` (`part_000:600-611`). -/
def updateBillingAddressWrapper (c : APIClient)
    (customerprofileID paymentProfileID : String)
    (address : ShippingAddress) : UpdateCustomerPaymentProfileWrapper :=
  { updateCustomerPaymentProfileRequest :=
      { merchantAuthentication := c.auth
        customerProfileId := customerprofileID
        paymentProfile :=
          { customerPaymentProfileId := paymentProfileID
            customerType := ""
            billTo := some address
            payment := { creditCard := { cardNumber := ""
                                         expirationDate := "" } } } } }

/-- `createCustomerPaymentProfileRequest` payload (`part_000:644-648`). -/
structure CreateCustomerPaymentProfileRequest where
  merchantAuthentication : MerchantAuthentication
  customerProfileId : String
  paymentProfile : PaymentProfile
deriving DecidableEq, Repr

/-- The envelope `{"createCustomerPaymentProfileRequest": ...}`. -/
structure CreateCustomerPaymentProfileWrapper where
  createCustomerPaymentProfileRequest : CreateCustomerPaymentProfileRequest
deriving DecidableEq, Repr

/-- The request built by `AddPaymentProfile` (`part_000:651-663`). -/
def addPaymentProfileWrapper (c : APIClient) (profileID : String)
    (creditCard : CreditCard) : CreateCustomerPaymentProfileWrapper :=
  { createCustomerPaymentProfileRequest :=
      { merchantAuthentication := c.auth
        customerProfileId := profileID
        paymentProfile :=
          { customerPaymentProfileId := ""
            customerType := ""
            billTo := none
            payment := { creditCard := creditCard } } } }

/-- The HTTP request assembled by `makeRequest` (`part_000:43-47`): a POST of
the serialized wrapper to `c.Endpoint` with content type `application/json`.
The payload is kept as the wrapper value; its serialization is external. -/
structure SentRequest (ρ : Type) where
  url : String
  contentType : String
  payload : ρ
deriving DecidableEq, Repr

/-- The request `makeRequest` sends for a given client and request body. -/
def makeRequestSent {ρ : Type} (c : APIClient) (requestBody : ρ) :
    SentRequest ρ :=
  { url := c.endpoint, contentType := "application/json"
    payload := requestBody }

/-- `CapturePriorAuthTransaction` with the receiver threaded through
explicitly: the method body contains no assignment to any field of the
receiver `c`, so the post-call client is the pre-call client. -/
def capturePriorAuthTransactionRun (c : APIClient) (refTransId amount : String)
    (env : Except MakeRequestError CreateTransactionResponse) :
    (SentRequest CreateTransactionWrapper ×
      Except String FullTransactionResponse) × APIClient :=
  ((makeRequestSent c (capturePriorAuthTransactionWrapper c refTransId amount),
    capturePriorAuthTransactionOp env), c)

/-- `CreateCustomerProfile` with the receiver threaded through explicitly:
no assignment to the receiver occurs in the method body. -/
def createCustomerProfileRun (c : APIClient) (profile : CustomerProfile)
    (validationMode : String)
    (env : Except MakeRequestError CreateCustomerProfileResponse) :
    (SentRequest CreateCustomerProfileWrapper × Except String String) ×
      APIClient :=
  ((makeRequestSent c (createCustomerProfileWrapper c profile validationMode),
    match env with
    | Except.error e => Except.error e.text
    | Except.ok response => createCustomerProfileResult response), c)

/-! ## Helper lemmas on the byte-trimming primitives -/

lemma goTrimLeft_cons_of_not_ws {c : Char} (h : ¬c.isWhitespace)
    (l : List Char) : goTrimLeft (c :: l) = c :: l := by
  simp [goTrimLeft, h]

lemma goTrimLeft_append_of_exists {a : List Char}
    (h : ∃ x ∈ a, ¬x.isWhitespace) (b : List Char) :
    goTrimLeft (a ++ b) = goTrimLeft a ++ b := by
  induction a with
  | nil => simp at h
  | cons c cs ih =>
    by_cases hc : c.isWhitespace
    · have hcs : ∃ x ∈ cs, ¬x.isWhitespace := by
        rcases h with ⟨x, hx, hxw⟩
        rcases List.mem_cons.mp hx with rfl | hmem
        · exact absurd hc hxw
        · exact ⟨x, hmem, hxw⟩
      simp [goTrimLeft, hc, ih hcs]
    · simp [goTrimLeft, hc]

lemma goTrimLeft_append_of_all_ws {a : List Char}
    (h : ∀ x ∈ a, x.isWhitespace) (b : List Char) :
    goTrimLeft (a ++ b) = goTrimLeft b := by
  induction a with
  | nil => simp
  | cons c cs ih =>
    have hc : c.isWhitespace := h c (List.mem_cons_self _ _)
    have hcs : ∀ x ∈ cs, x.isWhitespace := fun x hx => h x (List.mem_cons_of_mem _ hx)
    simp [goTrimLeft, hc, ih hcs]

lemma goTrimLeft_eq_nil_of_all_ws {a : List Char}
    (h : ∀ x ∈ a, x.isWhitespace) : goTrimLeft a = [] := by
  have := goTrimLeft_append_of_all_ws h []
  simpa using this

lemma goTrimRight_cons_of_not_ws {c : Char} (h : ¬c.isWhitespace)
    (l : List Char) : goTrimRight (c :: l) = c :: goTrimRight l := by
  unfold goTrimRight
  by_cases hex : ∃ x ∈ l.reverse, ¬x.isWhitespace
  · rw [show (c :: l).reverse = l.reverse ++ [c] by simp,
      goTrimLeft_append_of_exists hex]
    simp
  · push_neg at hex
    rw [show (c :: l).reverse = l.reverse ++ [c] by simp,
      goTrimLeft_append_of_all_ws hex, goTrimLeft_eq_nil_of_all_ws hex]
    simp [goTrimLeft, h]

lemma bomChar_not_ws : bomChar.isWhitespace = false := by decide

/-! ## Claim C2 -/

/--
C2 (amended).  For every operation of the current gateway client except
`DeleteShippingAddress`, and every decoded response envelope, the operation
succeeds exactly when `messages.resultCode` is the literal `"Ok"`; on any
other result code it returns (never crashes) an error embedding the first
message's text (and, for create-profile / add-shipping-address /
update-billing-address, also its code) when the message list is non-empty,
and a per-operation fallback error when the list is empty — that fallback is
the fixed string `"API error: unknown error"` (resp.
`"...from Authorize.Net"`) for most operations, but for create-profile /
add-shipping-address / update-billing-address it embeds the offending result
code, so it is not one fixed message.  `DeleteShippingAddress`
(`part_000:557-579`) is the exception: it never inspects the decoded
envelope, returning success whenever the transport call succeeded, whatever
the result code.  In the oldest client revision (`part_000:773-786`) the
success sentinel is `"OK"` instead, and a non-`"OK"` result code with an
empty message list makes `CreateCustomerProfile` panic (index out of range)
rather than return an error.
-/
theorem c2_result_classification :
    (∀ r : CreateCustomerProfileResponse,
      createCustomerProfileResult r =
        (if r.messages.resultCode = "Ok" then Except.ok r.customerProfileId
         else match r.messages.message with
           | [] => Except.error ("API error: Request failed with ResultCode "
               ++ squo ++ r.messages.resultCode ++ squo
               ++ " but no message was provided")
           | m :: _ => Except.error ("API error " ++ m.text ++ " " ++ m.code)))
    ∧ (∀ r : GetCustomerProfileResponse,
      getCustomerProfileResult r =
        (if r.messages.resultCode = "Ok" then Except.ok r.profile
         else match r.messages.message with
           | [] => Except.error "API error: unknown error from Authorize.Net"
           | m :: _ => Except.error ("API error: " ++ m.text)))
    ∧ (∀ r : GetCustomerProfileIdsResponse,
      profileIdsPageResult r =
        (if r.messages.resultCode = "Ok" then Except.ok r.ids
         else match r.messages.message with
           | [] => Except.error "API error: unknown error"
           | m :: _ => Except.error ("API error: " ++ m.text)))
    ∧ (∀ r : CreateTransactionResponse,
      chargeCustomerProfileResult r =
        (if r.messages.resultCode = "Ok" then Except.ok r.transactionResponse
         else match r.messages.message with
           | [] => Except.error "API error: unknown error"
           | m :: _ => Except.error ("API error: " ++ m.text)))
    ∧ (∀ r : CreateTransactionResponse,
      authorizeCustomerProfileResult r =
        (if r.messages.resultCode = "Ok" then Except.ok r.transactionResponse
         else match r.messages.message with
           | [] => Except.error "API error: unknown error"
           | m :: _ => Except.error ("API error: " ++ m.text)))
    ∧ (∀ r : CreateTransactionResponse,
      capturePriorAuthTransactionResult r =
        (if r.messages.resultCode = "Ok" then Except.ok r.transactionResponse
         else match r.messages.message with
           | [] => Except.error "API error: unknown error"
           | m :: _ => Except.error ("API error: " ++ m.text)))
    ∧ (∀ r : StatusOnlyResponse,
      updateCustomerProfileResult r =
        (if r.messages.resultCode = "Ok" then Except.ok ()
         else match r.messages.message with
           | [] => Except.error "API error: unknown error"
           | m :: _ => Except.error ("API error: " ++ m.text)))
    ∧ (∀ r : CreateCustomerShippingAddressResponse,
      addShippingAddressResult r =
        (if r.messages.resultCode = "Ok" then Except.ok r.customerAddressId
         else match r.messages.message with
           | [] => Except.error
               ("API error: add shipping address failed with ResultCode "
                 ++ squo ++ r.messages.resultCode ++ squo)
           | m :: _ => Except.error ("API error: " ++ m.text
               ++ " (Code: " ++ m.code ++ ")")))
    ∧ (∀ r : StatusOnlyResponse,
      updateBillingAddressResult r =
        (if r.messages.resultCode = "Ok" then Except.ok ()
         else match r.messages.message with
           | [] => Except.error
               ("API error: update billing failed with ResultCode "
                 ++ squo ++ r.messages.resultCode ++ squo)
           | m :: _ => Except.error ("API error: " ++ m.text
               ++ " (Code: " ++ m.code ++ ")")))
    ∧ (∀ r : AddPaymentProfileResponse,
      addPaymentProfileResult r =
        (if r.messages.resultCode = "Ok" then Except.ok r.customerPaymentProfileId
         else match r.messages.message with
           | [] => Except.error "API error: unknown error"
           | m :: _ => Except.error ("API error: " ++ m.text)))
    ∧ (∀ r : StatusOnlyResponse,
      deleteShippingAddressResult r = Except.ok ())
    ∧ (∀ r : CreateCustomerProfileResponse,
      createCustomerProfileResultV0 r =
        (if r.messages.resultCode = "OK" then GoResult.ok r.customerProfileId
         else match r.messages.message with
           | [] => GoResult.panics
           | m :: _ => GoResult.err ("API error: " ++ m.text))) := by
  refine ⟨?_, ?_, ?_, ?_, ?_, ?_, ?_, ?_, ?_, ?_, ?_, ?_⟩ <;>
    intro r <;>
    by_cases h : r.messages.resultCode = "Ok" <;>
    by_cases h2 : r.messages.resultCode = "OK" <;>
    cases hm : r.messages.message <;>
    simp [createCustomerProfileResult, getCustomerProfileResult,
      profileIdsPageResult, chargeCustomerProfileResult,
      authorizeCustomerProfileResult, capturePriorAuthTransactionResult,
      updateCustomerProfileResult, addShippingAddressResult,
      updateBillingAddressResult, addPaymentProfileResult,
      deleteShippingAddressResult,
      createCustomerProfileResultV0, h, h2, hm]

/--
C2 counterexample.  The claim as stated fails on the code three times over:
in the oldest client revision (`part_000:782-785`) a non-success result code
with an empty message list crashes (`Message[0]` panics) instead of
returning an error; in the current client, `DeleteShippingAddress` returns
success on an envelope whose result code is not the success marker (it never
inspects the envelope), refuting "returns success if and only if
`messages.resultCode` equals the literal success marker"; and the current
`CreateCustomerProfile` empty-list fallback is not one fixed message — it
embeds the result code, so two different failing result codes produce two
different fallback errors.
-/
theorem c2_counterexample :
    createCustomerProfileResultV0
        { customerProfileId := ""
          messages := { resultCode := "Error", message := [] } }
      = GoResult.panics
    ∧ deleteShippingAddressResult
        { messages := { resultCode := "Error"
                        message := [{ code := "E00001", text := "boom" }] } }
      = Except.ok ()
    ∧ createCustomerProfileResult
        { customerProfileId := ""
          messages := { resultCode := "E1", message := [] } }
      ≠ createCustomerProfileResult
        { customerProfileId := ""
          messages := { resultCode := "E2", message := [] } } := by
  refine ⟨rfl, rfl, ?_⟩
  have e1 : createCustomerProfileResult
      { customerProfileId := ""
        messages := { resultCode := "E1", message := [] } }
      = Except.error ("API error: Request failed with ResultCode "
          ++ squo ++ "E1" ++ squo ++ " but no message was provided") := rfl
  have e2 : createCustomerProfileResult
      { customerProfileId := ""
        messages := { resultCode := "E2", message := [] } }
      = Except.error ("API error: Request failed with ResultCode "
          ++ squo ++ "E2" ++ squo ++ " but no message was provided") := rfl
  rw [e1, e2]
  intro h
  injection h with h2
  exact absurd h2 (by decide)

/-! ## Claims C5 and C7 -/

/-- The Go zero value of a `Messages` block. -/
def zeroMessages : Messages := { resultCode := "", message := [] }

/--
C5 (amended).  The current `makeRequest` (`part_000:61-75`) treats a body
that is empty or all-whitespace after trimming as a success with the
zero-valued response envelope — for every unmarshaller, without consulting
it at all.  The two earlier `makeRequest` revisions
(`authorizenet.go:56-68` and `part_000:740-747`) have no such guard: they
unmarshal the (BOM-stripped) body unconditionally, so an empty body is a
decode error there (for any unmarshaller that, like `encoding/json`, fails
on empty input).
-/
theorem c5_empty_body :
    (∀ (α : Type) (unmarshal : List Char → Option α) (zero : α)
      (body : List Char), goTrimSpace body = [] →
      makeRequestDecode unmarshal zero body = Except.ok zero)
    ∧ (∀ (α : Type) (unmarshal : List Char → Option α),
      unmarshal [] = none →
      makeRequestDecodeNoTrim unmarshal [] =
        Except.error "failed to unmarshal response: invalid character"
      ∧ makeRequestDecodeNoBom unmarshal [] =
        Except.error "failed to unmarshal response: invalid character") := by
  constructor
  · intro α unmarshal zero body h
    unfold makeRequestDecode
    simp [h]
  · intro α unmarshal h
    constructor
    · unfold makeRequestDecodeNoTrim
      simp [goTrimBom, h]
    · unfold makeRequestDecodeNoBom
      simp [h]

/-- C5 witness: the amended statement applied at an all-whitespace body
(a single space) and at the empty body with the concrete unmarshal model. -/
theorem c5_witness :
    makeRequestDecode unmarshalModel zeroMessages [' '] =
      Except.ok zeroMessages
    ∧ makeRequestDecodeNoTrim unmarshalModel [] =
      Except.error "failed to unmarshal response: invalid character"
    ∧ makeRequestDecodeNoBom unmarshalModel [] =
      Except.error "failed to unmarshal response: invalid character" :=
  ⟨c5_empty_body.1 Messages unmarshalModel zeroMessages [' '] (by decide),
   (c5_empty_body.2 Messages unmarshalModel rfl).1,
   (c5_empty_body.2 Messages unmarshalModel rfl).2⟩

/--
C5 counterexample.  The claim as stated — no `makeRequest` revision returns
a decode error on an empty body — fails on the revisions cited at
`authorizenet.go:56-68` and `part_000:740-747`: with the unmarshal model
(which, like `encoding/json.Unmarshal`, fails on empty input) both return a
decode error on the empty body, and do not return the zero-valued success.
-/
theorem c5_counterexample :
    makeRequestDecodeNoTrim unmarshalModel ([] : List Char) =
      Except.error "failed to unmarshal response: invalid character"
    ∧ makeRequestDecodeNoBom unmarshalModel ([] : List Char) =
      Except.error "failed to unmarshal response: invalid character"
    ∧ makeRequestDecodeNoTrim unmarshalModel ([] : List Char) ≠
      Except.ok zeroMessages := by
  refine ⟨rfl, rfl, ?_⟩
  intro h
  have e1 : makeRequestDecodeNoTrim unmarshalModel ([] : List Char) =
      Except.error "failed to unmarshal response: invalid character" := rfl
  rw [e1] at h
  exact Except.noConfusion h

/--
C7 (amended).  BOM tolerance holds with side conditions.  For the current
`makeRequest` (`part_000:66-72`): prefixing a byte-order mark leaves the
decode unchanged for every unmarshaller provided the body starts with a
rune that is neither whitespace nor itself a byte-order mark (a
whitespace-only body decodes to the zero-valued success without the prefix
but to an unmarshal attempt on the empty body with it).  For the revision at
`authorizenet.go:61-66`: prefixing a byte-order mark leaves the decode
unchanged provided the body does not itself begin with a byte-order mark
(only one mark is stripped).  The oldest revision (`part_000:740-747`)
strips no byte-order mark at all.
-/
theorem c7_bom_tolerance :
    (∀ (α : Type) (unmarshal : List Char → Option α) (zero : α)
      (c : Char) (cs : List Char), ¬c.isWhitespace → c ≠ bomChar →
      makeRequestDecode unmarshal zero (bomChar :: c :: cs) =
        makeRequestDecode unmarshal zero (c :: cs))
    ∧ (∀ (α : Type) (unmarshal : List Char → Option α) (b : List Char),
      b.head? ≠ some bomChar →
      makeRequestDecodeNoTrim unmarshal (bomChar :: b) =
        makeRequestDecodeNoTrim unmarshal b) := by
  constructor
  · intro α unmarshal zero c cs hws hbom
    have hbw : ¬bomChar.isWhitespace := by simp [bomChar_not_ws]
    have h1 : goTrimSpace (bomChar :: c :: cs) =
        bomChar :: c :: goTrimRight cs := by
      unfold goTrimSpace
      rw [goTrimLeft_cons_of_not_ws hbw,
        goTrimRight_cons_of_not_ws hbw,
        goTrimRight_cons_of_not_ws hws]
    have h2 : goTrimSpace (c :: cs) = c :: goTrimRight cs := by
      unfold goTrimSpace
      rw [goTrimLeft_cons_of_not_ws hws,
        goTrimRight_cons_of_not_ws hws]
    unfold makeRequestDecode
    rw [h1, h2]
    simp [goTrimBom, hbom]
  · intro α unmarshal b hb
    unfold makeRequestDecodeNoTrim
    have h1 : goTrimBom (bomChar :: b) = b := by simp [goTrimBom]
    have h2 : goTrimBom b = b := by
      cases b with
      | nil => rfl
      | cons c cs =>
        have : c ≠ bomChar := by
          intro hc
          exact hb (by simp [hc])
        simp [goTrimBom, this]
    rw [h1, h2]

/-- C7 witness: the amended statement applied at the one-rune body `"x"`
with the concrete unmarshal model. -/
theorem c7_witness :
    makeRequestDecode unmarshalModel zeroMessages (bomChar :: ['x']) =
      makeRequestDecode unmarshalModel zeroMessages ['x']
    ∧ makeRequestDecodeNoTrim unmarshalModel (bomChar :: ['x']) =
      makeRequestDecodeNoTrim unmarshalModel ['x'] :=
  ⟨c7_bom_tolerance.1 Messages unmarshalModel zeroMessages 'x' []
      (by decide) (by decide),
   c7_bom_tolerance.2 Messages unmarshalModel ['x'] (by decide)⟩

/--
C7 counterexample.  The claim as stated — for every body `b`, decoding
BOM-prefixed `b` equals decoding `b` — is false.  For the current
`makeRequest` at the whitespace-only body `" "`: without the prefix the call
is the zero-valued success, with the prefix the trimmed body is the lone
mark, which is stripped, and the unmarshaller then fails on the empty input
(as `encoding/json` does).  For the oldest revision (`part_000:740-747`,
cited by the claim), which strips no mark, the prefixed body fails to
unmarshal (a BOM is not a valid JSON token) while the unprefixed body
decodes.
-/
theorem c7_counterexample :
    makeRequestDecode unmarshalModel zeroMessages (bomChar :: [' ']) ≠
      makeRequestDecode unmarshalModel zeroMessages [' ']
    ∧ makeRequestDecodeNoBom unmarshalModel (bomChar :: ['x']) ≠
      makeRequestDecodeNoBom unmarshalModel ['x'] := by
  constructor
  · intro h
    have e1 : makeRequestDecode unmarshalModel zeroMessages
        (bomChar :: [' ']) = Except.error
          ("failed to unmarshal response: invalid character. Body received: "
            ++ String.mk []) := rfl
    have e2 : makeRequestDecode unmarshalModel zeroMessages [' '] =
        Except.ok zeroMessages := rfl
    rw [e1, e2] at h
    exact Except.noConfusion h
  · intro h
    have e1 : makeRequestDecodeNoBom unmarshalModel (bomChar :: ['x']) =
        Except.error "failed to unmarshal response: invalid character" := rfl
    have e2 : makeRequestDecodeNoBom unmarshalModel ['x'] =
        Except.ok { resultCode := "Ok", message := [] } := rfl
    rw [e1, e2] at h
    exact Except.noConfusion h


/-! ## Claim C3 -/

lemma getAllIdsLoop_full_prefix (good : List GetCustomerProfileIdsResponse)
    (hgood : ∀ p ∈ good, p.messages.resultCode = "Ok" ∧ p.ids.length = 1000) :
    ∀ (offset : Nat) (acc : List String)
      (rest : List (Except MakeRequestError GetCustomerProfileIdsResponse)),
    getAllIdsLoop 1000 offset acc (good.map Except.ok ++ rest)
      = ((List.range good.length).map
            (fun i => { limit := 1000, offset := offset + 1000 * i }) ++
          (getAllIdsLoop 1000 (offset + 1000 * good.length)
            (acc ++ (good.map GetCustomerProfileIdsResponse.ids).flatten)
            rest).1,
         (getAllIdsLoop 1000 (offset + 1000 * good.length)
            (acc ++ (good.map GetCustomerProfileIdsResponse.ids).flatten)
            rest).2) := by
  induction good with
  | nil =>
    intro offset acc rest
    simp
  | cons p ps ih =>
    intro offset acc rest
    have hp := hgood p (List.mem_cons_self _ _)
    have hps : ∀ q ∈ ps, q.messages.resultCode = "Ok" ∧ q.ids.length = 1000 :=
      fun q hq => hgood q (List.mem_cons_of_mem _ hq)
    have step : getAllIdsLoop 1000 offset acc
        ((p :: ps).map Except.ok ++ rest)
        = ({ limit := 1000, offset := offset } ::
            (getAllIdsLoop 1000 (offset + 1000) (acc ++ p.ids)
              (ps.map Except.ok ++ rest)).1,
           (getAllIdsLoop 1000 (offset + 1000) (acc ++ p.ids)
              (ps.map Except.ok ++ rest)).2) := by
      simp only [List.map_cons, List.cons_append, getAllIdsLoop]
      simp [hp.1, hp.2]
    rw [step, ih hps (offset + 1000) (acc ++ p.ids) rest]
    have hoff : offset + 1000 + 1000 * ps.length =
        offset + 1000 * (ps.length + 1) := by ring
    have hacc : (acc ++ p.ids) ++
        (ps.map GetCustomerProfileIdsResponse.ids).flatten =
        acc ++ ((p :: ps).map GetCustomerProfileIdsResponse.ids).flatten := by
      simp [List.append_assoc]
    rw [hoff, hacc]
    have hrange : (List.range (ps.length + 1)).map
        (fun i => ({ limit := 1000, offset := offset + 1000 * i } : Paging))
        = { limit := 1000, offset := offset } ::
          (List.range ps.length).map
            (fun i =>
              ({ limit := 1000, offset := offset + 1000 + 1000 * i } : Paging)) := by
      rw [List.range_succ_eq_map, List.map_cons, List.map_map]
      refine congrArg₂ List.cons (by simp) ?_
      refine List.map_congr_left fun a ha => ?_
      simp [Function.comp_apply, Paging.mk.injEq]
      ring
    simp only [List.length_cons]
    rw [hrange, List.cons_append]

/--
C3 (confirmed).  `GetAllCustomerProfileIds` requests pages with limit 1000
starting at offset 1; for any run of full, successful pages followed by one
final answer: (i) if the final page is successful and short, the requested
pagings are exactly offsets `1, 1001, ..., 1 + 1000·n` with limit 1000, and
the result is the in-order concatenation of every page's ids including the
short page's; (ii) if the final call fails in transport/decode, the whole
call returns that error (wrapped as in the source) and no ids; (iii) if the
final page carries a non-"Ok" result code, the whole call returns that
page's error (first message text, or the fallback on an empty message list)
and no ids.
-/
theorem c3_pagination (good : List GetCustomerProfileIdsResponse)
    (hgood : ∀ p ∈ good, p.messages.resultCode = "Ok" ∧ p.ids.length = 1000) :
    (∀ last : GetCustomerProfileIdsResponse,
      last.messages.resultCode = "Ok" → last.ids.length < 1000 →
      getAllCustomerProfileIds (good.map Except.ok ++ [Except.ok last])
        = ((List.range (good.length + 1)).map
             (fun i => { limit := 1000, offset := 1 + 1000 * i }),
           Except.ok
             ((good.map GetCustomerProfileIdsResponse.ids).flatten
               ++ last.ids)))
    ∧ (∀ e : MakeRequestError,
      getAllCustomerProfileIds (good.map Except.ok ++ [Except.error e])
        = ((List.range (good.length + 1)).map
             (fun i => { limit := 1000, offset := 1 + 1000 * i }),
           Except.error ("failed to make API request: " ++ e.text)))
    ∧ (∀ bad : GetCustomerProfileIdsResponse,
      bad.messages.resultCode ≠ "Ok" →
      getAllCustomerProfileIds (good.map Except.ok ++ [Except.ok bad])
        = ((List.range (good.length + 1)).map
             (fun i => { limit := 1000, offset := 1 + 1000 * i }),
           Except.error
             (match bad.messages.message with
               | [] => "API error: unknown error"
               | m :: _ => "API error: " ++ m.text))) := by
  have base := getAllIdsLoop_full_prefix good hgood 1 []
  refine ⟨?_, ?_, ?_⟩
  · intro last hok hshort
    unfold getAllCustomerProfileIds
    rw [base [Except.ok last]]
    have htail : getAllIdsLoop 1000 (1 + 1000 * good.length)
        ([] ++ (good.map GetCustomerProfileIdsResponse.ids).flatten)
        [Except.ok last]
        = ([{ limit := 1000, offset := 1 + 1000 * good.length }],
           Except.ok
             ((good.map GetCustomerProfileIdsResponse.ids).flatten
               ++ last.ids)) := by
      simp only [getAllIdsLoop, List.nil_append]
      simp [hok, hshort]
    rw [htail, List.range_succ, List.map_append]
    simp
  · intro e
    unfold getAllCustomerProfileIds
    rw [base [Except.error e]]
    have htail : getAllIdsLoop 1000 (1 + 1000 * good.length)
        ([] ++ (good.map GetCustomerProfileIdsResponse.ids).flatten)
        [Except.error e]
        = ([{ limit := 1000, offset := 1 + 1000 * good.length }],
           Except.error ("failed to make API request: " ++ e.text)) := by
      simp only [getAllIdsLoop, List.nil_append]
    rw [htail, List.range_succ, List.map_append]
    simp
  · intro bad hbad
    unfold getAllCustomerProfileIds
    rw [base [Except.ok bad]]
    have htail : getAllIdsLoop 1000 (1 + 1000 * good.length)
        ([] ++ (good.map GetCustomerProfileIdsResponse.ids).flatten)
        [Except.ok bad]
        = ([{ limit := 1000, offset := 1 + 1000 * good.length }],
           Except.error
             (match bad.messages.message with
               | [] => "API error: unknown error"
               | m :: _ => "API error: " ++ m.text)) := by
      simp only [getAllIdsLoop, List.nil_append]
      rcases hm : bad.messages.message with _ | ⟨m, ms⟩ <;> simp [hbad, hm]
    rw [htail, List.range_succ, List.map_append]
    simp

/-- A full first page used in the C3 witness: 1000 ids, result code "Ok". -/
def c3FullPage : GetCustomerProfileIdsResponse :=
  { ids := List.replicate 1000 "p"
    totalNumInResultSet := 1001
    messages := { resultCode := "Ok", message := [] } }

/-- The short second page used in the C3 witness: one id, result code "Ok". -/
def c3ShortPage : GetCustomerProfileIdsResponse :=
  { ids := ["q"]
    totalNumInResultSet := 1001
    messages := { resultCode := "Ok", message := [] } }

/-- C3 witness: one full page then one short page — the loop requests
offsets 1 and 1001 with limit 1000 and returns the concatenation of the
two pages' ids. -/
theorem c3_witness :
    getAllCustomerProfileIds [Except.ok c3FullPage, Except.ok c3ShortPage]
      = ([{ limit := 1000, offset := 1 }, { limit := 1000, offset := 1001 }],
         Except.ok (c3FullPage.ids ++ c3ShortPage.ids)) := by
  have hgood : ∀ p ∈ [c3FullPage],
      p.messages.resultCode = "Ok" ∧ p.ids.length = 1000 := by
    intro p hp
    rw [List.mem_singleton] at hp
    subst hp
    refine ⟨rfl, ?_⟩
    show (List.replicate 1000 "p").length = 1000
    rw [List.length_replicate]
  have hshort : c3ShortPage.ids.length < 1000 := by
    show (["q"] : List String).length < 1000
    simp
  have h := (c3_pagination [c3FullPage] hgood).1 c3ShortPage rfl hshort
  have hflat : ([c3FullPage].map GetCustomerProfileIdsResponse.ids).flatten
      = c3FullPage.ids := by
    simp only [List.map_cons, List.map_nil, List.flatten_cons,
      List.flatten_nil, List.append_nil]
  rw [hflat] at h
  exact h

/-! ## Claim C8 -/

lemma getAllProfilesLoop_eq_specFetchEach
    (fetch : String → Except String CustomerProfile) :
    ∀ (ids : List String) (acc : List CustomerProfile),
    getAllProfilesLoop fetch acc ids =
      (match specFetchEach fetch ids with
        | Except.error e => Except.error e
        | Except.ok profiles => Except.ok (acc ++ profiles)) := by
  intro ids
  induction ids with
  | nil =>
    intro acc
    simp [getAllProfilesLoop, specFetchEach]
  | cons id rest ih =>
    intro acc
    simp only [getAllProfilesLoop, specFetchEach]
    cases hf : fetch id with
    | error e => rfl
    | ok profile =>
      dsimp only
      rw [ih (acc ++ [profile])]
      cases hs : specFetchEach fetch rest with
      | error e => rfl
      | ok profiles => simp

/--
C8 (confirmed).  `GetAllCustomerProfiles` equals the spec-side composition:
fetch the full id list via `GetAllCustomerProfileIds`, then fetch each
profile via `GetCustomerProfile` sequentially in id-list order; the first
failure (of the id fetch or of any single profile fetch) aborts the whole
aggregate with that failure's error and no profiles.
-/
theorem c8_profiles_composition
    (pages : List (Except MakeRequestError GetCustomerProfileIdsResponse))
    (profEnv : String → Except MakeRequestError GetCustomerProfileResponse) :
    getAllCustomerProfiles pages profEnv =
      specGetAllCustomerProfiles pages profEnv := by
  unfold getAllCustomerProfiles specGetAllCustomerProfiles
  cases hids : (getAllCustomerProfileIds pages).2 with
  | error e => rfl
  | ok ids =>
    dsimp only
    rw [getAllProfilesLoop_eq_specFetchEach
      (fun id => getCustomerProfileOp (profEnv id)) ids []]
    cases hs : specFetchEach
        (fun id => getCustomerProfileOp (profEnv id)) ids with
    | error e => rfl
    | ok profiles => simp

/-! ## Claim C9 -/

/--
C9 (confirmed).  `NewAPIClient` stores the given login id, transaction key
and endpoint; every operation of the current gateway client embeds the
client's stored credential `c.Auth` in its outbound request envelope and
POSTs it to `c.Endpoint` as `application/json`; and executing an operation
leaves the client's `Auth` and `Endpoint` fields exactly as `NewAPIClient`
set them (the methods contain no assignment to the receiver).
-/
theorem c9_credential_invariant :
    (∀ l k e : String, (newAPIClient l k e).auth =
        { name := l, transactionKey := k }
      ∧ (newAPIClient l k e).endpoint = e)
    ∧ (∀ (c : APIClient) (profile : CustomerProfile) (vm : String),
      (createCustomerProfileWrapper c profile vm).createCustomerProfileRequest.merchantAuthentication = c.auth
      ∧ (makeRequestSent c (createCustomerProfileWrapper c profile vm)).url = c.endpoint)
    ∧ (∀ (c : APIClient) (pid : String),
      (getCustomerProfileWrapper c pid).getCustomerProfileRequest.merchantAuthentication = c.auth
      ∧ (makeRequestSent c (getCustomerProfileWrapper c pid)).url = c.endpoint)
    ∧ (∀ (c : APIClient) (limit offset : Nat),
      (getCustomerProfileIdsWrapper c limit offset).getCustomerProfileIdsRequest.merchantAuthentication = c.auth
      ∧ (makeRequestSent c (getCustomerProfileIdsWrapper c limit offset)).url = c.endpoint)
    ∧ (∀ (c : APIClient) (p pp a inv desc tt : String),
      (chargeCustomerProfileWrapper c p pp a inv desc tt).createTransactionRequest.merchantAuthentication = c.auth
      ∧ (makeRequestSent c (chargeCustomerProfileWrapper c p pp a inv desc tt)).url = c.endpoint)
    ∧ (∀ (c : APIClient) (p pp a : String),
      (authorizeCustomerProfileWrapper c p pp a).createTransactionRequest.merchantAuthentication = c.auth
      ∧ (makeRequestSent c (authorizeCustomerProfileWrapper c p pp a)).url = c.endpoint)
    ∧ (∀ (c : APIClient) (ref amt : String),
      (capturePriorAuthTransactionWrapper c ref amt).createTransactionRequest.merchantAuthentication = c.auth
      ∧ (makeRequestSent c (capturePriorAuthTransactionWrapper c ref amt)).url = c.endpoint)
    ∧ (∀ (c : APIClient) (pid email desc : String),
      (updateCustomerProfileWrapper c pid email desc).updateCustomerProfileRequest.merchantAuthentication = c.auth
      ∧ (makeRequestSent c (updateCustomerProfileWrapper c pid email desc)).url = c.endpoint)
    ∧ (∀ (c : APIClient) (pid : String) (addr : ShippingAddress),
      (addShippingAddressWrapper c pid addr).createCustomerShippingAddressRequest.merchantAuthentication = c.auth
      ∧ (makeRequestSent c (addShippingAddressWrapper c pid addr)).url = c.endpoint)
    ∧ (∀ (c : APIClient) (pid aid : String),
      (deleteShippingAddressWrapper c pid aid).deleteCustomerShippingAddressRequest.merchantAuthentication = c.auth
      ∧ (makeRequestSent c (deleteShippingAddressWrapper c pid aid)).url = c.endpoint)
    ∧ (∀ (c : APIClient) (cpid ppid : String) (addr : ShippingAddress),
      (updateBillingAddressWrapper c cpid ppid addr).updateCustomerPaymentProfileRequest.merchantAuthentication = c.auth
      ∧ (makeRequestSent c (updateBillingAddressWrapper c cpid ppid addr)).url = c.endpoint)
    ∧ (∀ (c : APIClient) (pid : String) (card : CreditCard),
      (addPaymentProfileWrapper c pid card).createCustomerPaymentProfileRequest.merchantAuthentication = c.auth
      ∧ (makeRequestSent c (addPaymentProfileWrapper c pid card)).url = c.endpoint)
    ∧ (∀ (c : APIClient) (ref amt : String)
        (env : Except MakeRequestError CreateTransactionResponse),
      (capturePriorAuthTransactionRun c ref amt env).2 = c)
    ∧ (∀ (c : APIClient) (profile : CustomerProfile) (vm : String)
        (env : Except MakeRequestError CreateCustomerProfileResponse),
      (createCustomerProfileRun c profile vm env).2 = c)
    ∧ (∀ (l k e ref amt : String)
        (env : Except MakeRequestError CreateTransactionResponse),
      ((capturePriorAuthTransactionRun (newAPIClient l k e) ref amt env).2).auth
          = { name := l, transactionKey := k }
      ∧ ((capturePriorAuthTransactionRun (newAPIClient l k e) ref amt env).2).endpoint = e) := by
  refine ⟨?_, ?_, ?_, ?_, ?_, ?_, ?_, ?_, ?_, ?_, ?_, ?_, ?_, ?_, ?_⟩ <;>
    intros <;> first | exact ⟨rfl, rfl⟩ | rfl

/-! ## Claim C1 -/

lemma makeRequestError_text_head (me : MakeRequestError) :
    me.text.data.head? = some 'f' := by
  cases me <;> rfl

lemma capture_error_starts (env : Except MakeRequestError CreateTransactionResponse)
    (e : String) (he : capturePriorAuthTransactionOp env = Except.error e) :
    e.data.head? = some 'f' ∨ e.data.head? = some 'A' := by
  cases env with
  | error me =>
    simp only [capturePriorAuthTransactionOp] at he
    injection he with h
    subst h
    exact Or.inl (makeRequestError_text_head me)
  | ok r =>
    simp only [capturePriorAuthTransactionOp,
      capturePriorAuthTransactionResult] at he
    by_cases hok : r.messages.resultCode = "Ok"
    · simp [hok] at he
    · rcases hm : r.messages.message with _ | ⟨m, ms⟩ <;>
        simp [hok, hm] at he
      · right
        rw [← he]
        rfl
      · right
        rw [← he]
        rfl

lemma capture_error_ne_critical
    (env : Except MakeRequestError CreateTransactionResponse) (e : String)
    (he : capturePriorAuthTransactionOp env = Except.error e) :
    e ≠ criticalMsg := by
  intro hc
  have hcrit : criticalMsg.data.head? = some 'C' := rfl
  rcases capture_error_starts env e he with h | h <;>
    rw [hc, hcrit] at h <;> exact absurd h (by decide)

/--
C1 (amended).  In the capture handler of `src/main.go`: when the gateway
capture succeeds but the database update fails, the HTTP response is status
500 with `is_success = false` and the fixed message
`"CRITICAL:Payment was processed but failed to update order record."` — a
message that states the payment was processed and that is distinct from
every message a gateway or transport failure response can carry (those all
begin with "failed to " or "API error"), so the reconciliation-failure
response is never conflated with a gateway/transport error response; the
body's success flag and status, however, do not report the payment as
successful — they are the same `false`/500 as that of a gateway error
response, only the message differs.
-/
theorem c1_reconciliation_failure :
    (∀ (req : CaptureRequest)
      (gwEnv : String → String → Except MakeRequestError CreateTransactionResponse)
      (marshal : ApiResponse → Option String)
      (ft : FullTransactionResponse) (bytes : String),
      req.refTransId ≠ "" →
      capturePriorAuthTransactionOp (gwEnv req.refTransId req.amount) =
        Except.ok ft →
      marshal (captureSuccessApiResponse ft) = some bytes →
      capturePriorAuthTransactionHandler (some req) gwEnv marshal
          (fun _ => false)
        = { status := 500
            body := HttpBody.api
              { isSuccess := false, message := criticalMsg, action := ""
                transaction := none }
            gwCalls := [(req.refTransId, req.amount)]
            dbCalls := [{ payload := bytes, transactionnum := ft.transId
                          whereKey := req.refTransId }] })
    ∧ (∀ (req : CaptureRequest)
      (gwEnv : String → String → Except MakeRequestError CreateTransactionResponse)
      (marshal : ApiResponse → Option String) (dbExec : DbCall → Bool)
      (e : String),
      req.refTransId ≠ "" →
      capturePriorAuthTransactionOp (gwEnv req.refTransId req.amount) =
        Except.error e →
      capturePriorAuthTransactionHandler (some req) gwEnv marshal dbExec
        = { status := 500
            body := HttpBody.api
              { isSuccess := false, message := e, action := ""
                transaction := none }
            gwCalls := [(req.refTransId, req.amount)], dbCalls := [] }
      ∧ e ≠ criticalMsg) := by
  constructor
  · intro req gwEnv marshal ft bytes hne hgw hmarshal
    simp [capturePriorAuthTransactionHandler, hne, hgw, hmarshal]
  · intro req gwEnv marshal dbExec e hne hgw
    refine ⟨?_, capture_error_ne_critical _ e hgw⟩
    simp [capturePriorAuthTransactionHandler, hne, hgw]

/-- The envelope used by the C1 witness run: a successful capture whose
transaction id is `"77"`. -/
def c1Env : CreateTransactionResponse :=
  { transactionResponse :=
      { responseCode := "1", authCode := "OK77", avsResultCode := "Y"
        cvvResultCode := "M", transId := "77", messages := [], errors := [] }
    messages := { resultCode := "Ok", message := [] } }

/-- C1 witness: the amended statement applied to a concrete run — a
successful capture with a failing database update, and a failing gateway
call. -/
theorem c1_witness :
    capturePriorAuthTransactionHandler
        (some { refTransId := "R1", amount := "10.00" })
        (fun _ _ => Except.ok c1Env) (fun _ => some "BODY") (fun _ => false)
      = { status := 500
          body := HttpBody.api
            { isSuccess := false, message := criticalMsg, action := ""
              transaction := none }
          gwCalls := [("R1", "10.00")]
          dbCalls := [{ payload := "BODY", transactionnum := "77"
                        whereKey := "R1" }] }
    ∧ (capturePriorAuthTransactionHandler
        (some { refTransId := "R1", amount := "10.00" })
        (fun _ _ => Except.error (MakeRequestError.sendRequest "refused"))
        (fun _ => some "BODY") (fun _ => false)
      = { status := 500
          body := HttpBody.api
            { isSuccess := false
              message := "failed to send request: refused", action := ""
              transaction := none }
          gwCalls := [("R1", "10.00")], dbCalls := [] }
      ∧ "failed to send request: refused" ≠ criticalMsg) :=
  ⟨c1_reconciliation_failure.1
      { refTransId := "R1", amount := "10.00" }
      (fun _ _ => Except.ok c1Env) (fun _ => some "BODY")
      c1Env.transactionResponse "BODY" (by decide) rfl rfl,
   c1_reconciliation_failure.2
      { refTransId := "R1", amount := "10.00" }
      (fun _ _ => Except.error (MakeRequestError.sendRequest "refused"))
      (fun _ => some "BODY") (fun _ => false)
      "failed to send request: refused" (by decide) rfl⟩

/--
C1 counterexample.  The claim as stated requires the response after a
successful capture with a failed database write to "still indicate that the
underlying payment succeeded".  At a concrete such run the handler responds
with status 500 and a body whose `is_success` flag is `false` — the same
status and flag as a gateway-error response — so the response does not
indicate payment success; only the message text (the fixed CRITICAL string)
distinguishes it.
-/
theorem c1_counterexample :
    (capturePriorAuthTransactionHandler
        (some { refTransId := "R1", amount := "10.00" })
        (fun _ _ => Except.ok c1Env) (fun _ => some "BODY")
        (fun _ => false)).body
      = HttpBody.api
          { isSuccess := false, message := criticalMsg, action := ""
            transaction := none }
    ∧ (capturePriorAuthTransactionHandler
        (some { refTransId := "R1", amount := "10.00" })
        (fun _ _ => Except.ok c1Env) (fun _ => some "BODY")
        (fun _ => false)).status = 500 := ⟨rfl, rfl⟩

/-! ## Claim C10 -/

/--
C10 (confirmed).  On the capture success path (gateway call and database
update both succeed), the byte string bound as the history payload (`$1`) of
the single issued UPDATE is exactly the byte string written as the HTTP
response body, and the value bound to the `transactionnum` column (`$2`) is
exactly the `TransId` of the gateway's capture response; the update's lookup
key (`$3`) is the request's `refTransId`.
-/
theorem c10_payload_consistency
    (req : CaptureRequest)
    (gwEnv : String → String → Except MakeRequestError CreateTransactionResponse)
    (marshal : ApiResponse → Option String) (dbExec : DbCall → Bool)
    (ft : FullTransactionResponse) (bytes : String)
    (hne : req.refTransId ≠ "")
    (hgw : capturePriorAuthTransactionOp (gwEnv req.refTransId req.amount) =
      Except.ok ft)
    (hmarshal : marshal (captureSuccessApiResponse ft) = some bytes)
    (hdb : dbExec { payload := bytes, transactionnum := ft.transId
                    whereKey := req.refTransId } = true) :
    (capturePriorAuthTransactionHandler (some req) gwEnv marshal
        dbExec).dbCalls
      = [{ payload := bytes, transactionnum := ft.transId
           whereKey := req.refTransId }]
    ∧ (capturePriorAuthTransactionHandler (some req) gwEnv marshal
        dbExec).body = HttpBody.raw bytes
    ∧ (capturePriorAuthTransactionHandler (some req) gwEnv marshal
        dbExec).status = 201 := by
  have hres : capturePriorAuthTransactionHandler (some req) gwEnv marshal
      dbExec
      = { status := 201, body := HttpBody.raw bytes
          gwCalls := [(req.refTransId, req.amount)]
          dbCalls := [{ payload := bytes, transactionnum := ft.transId
                        whereKey := req.refTransId }] } := by
    simp [capturePriorAuthTransactionHandler, hne, hgw, hmarshal, hdb]
  rw [hres]
  exact ⟨rfl, rfl, rfl⟩

/-- C10 witness: the statement applied to a concrete successful run. -/
theorem c10_witness :
    (capturePriorAuthTransactionHandler
        (some { refTransId := "R1", amount := "10.00" })
        (fun _ _ => Except.ok c1Env) (fun _ => some "BODY")
        (fun _ => true)).dbCalls
      = [{ payload := "BODY", transactionnum := "77", whereKey := "R1" }]
    ∧ (capturePriorAuthTransactionHandler
        (some { refTransId := "R1", amount := "10.00" })
        (fun _ _ => Except.ok c1Env) (fun _ => some "BODY")
        (fun _ => true)).body = HttpBody.raw "BODY"
    ∧ (capturePriorAuthTransactionHandler
        (some { refTransId := "R1", amount := "10.00" })
        (fun _ _ => Except.ok c1Env) (fun _ => some "BODY")
        (fun _ => true)).status = 201 :=
  c10_payload_consistency
    { refTransId := "R1", amount := "10.00" }
    (fun _ _ => Except.ok c1Env) (fun _ => some "BODY") (fun _ => true)
    c1Env.transactionResponse "BODY" (by decide) rfl rfl rfl

/-! ## Claim C4 -/

/-- The decoded `transactionResponse` of the stub gateway reply in the
end-to-end example: `transId` `"60987654321"`, every other field at its
zero value. -/
def c4StubTx : FullTransactionResponse :=
  { responseCode := "", authCode := "", avsResultCode := ""
    cvvResultCode := "", transId := "60987654321"
    messages := [], errors := [] }

/-- The decoded stub gateway reply
`{"transactionResponse":{"transId":"60987654321"},"messages":{"resultCode":"Ok","message":[]}}`. -/
def c4StubEnv : CreateTransactionResponse :=
  { transactionResponse := c4StubTx
    messages := { resultCode := "Ok", message := [] } }

/-- The decoded request body `{"refTransId":"60123456789","amount":"10.00"}`. -/
def c4Request : CaptureRequest :=
  { refTransId := "60123456789", amount := "10.00" }

/--
C4 (confirmed).  For the capture request
`{"refTransId":"60123456789","amount":"10.00"}` against a stub gateway
returning the reply with `transId` `"60987654321"` and result code `"Ok"`
with an empty message list, and a reachable database: the handler responds
HTTP 201, the written body is the serialization of an `ApiResponse` with
`is_success = true` carrying the transaction with id `"60987654321"`, and
exactly one database update is issued, whose lookup key is `"60123456789"`
(and whose new `transactionnum` is `"60987654321"`).
-/
theorem c4_end_to_end (marshal : ApiResponse → Option String)
    (bytes : String) (dbExec : DbCall → Bool)
    (hmarshal : marshal (captureSuccessApiResponse c4StubTx) = some bytes)
    (hdb : dbExec { payload := bytes, transactionnum := "60987654321"
                    whereKey := "60123456789" } = true) :
    capturePriorAuthTransactionHandler (some c4Request)
        (fun _ _ => Except.ok c4StubEnv) marshal dbExec
      = { status := 201, body := HttpBody.raw bytes
          gwCalls := [("60123456789", "10.00")]
          dbCalls := [{ payload := bytes, transactionnum := "60987654321"
                        whereKey := "60123456789" }] }
    ∧ (captureSuccessApiResponse c4StubTx).isSuccess = true
    ∧ (captureSuccessApiResponse c4StubTx).transaction = some c4StubTx
    ∧ c4StubTx.transId = "60987654321" := by
  have hgw : capturePriorAuthTransactionOp (Except.ok c4StubEnv)
      = Except.ok c4StubTx := rfl
  refine ⟨?_, rfl, rfl, rfl⟩
  have hne : c4Request.refTransId ≠ "" := by decide
  have hdb2 : dbExec ⟨bytes, c4StubTx.transId, c4Request.refTransId⟩ = true := hdb
  simp [capturePriorAuthTransactionHandler, hne, hgw, hmarshal, hdb2]
  exact ⟨⟨rfl, rfl⟩, rfl, rfl⟩

/-- C4 witness: the end-to-end statement applied at a concrete marshaller
and a succeeding database. -/
theorem c4_witness :
    capturePriorAuthTransactionHandler (some c4Request)
        (fun _ _ => Except.ok c4StubEnv) (fun _ => some "BODY")
        (fun _ => true)
      = { status := 201, body := HttpBody.raw "BODY"
          gwCalls := [("60123456789", "10.00")]
          dbCalls := [{ payload := "BODY", transactionnum := "60987654321"
                        whereKey := "60123456789" }] }
    ∧ (captureSuccessApiResponse c4StubTx).isSuccess = true :=
  ⟨(c4_end_to_end (fun _ => some "BODY") "BODY" (fun _ => true) rfl rfl).1,
   (c4_end_to_end (fun _ => some "BODY") "BODY" (fun _ => true) rfl rfl).2.1⟩

/-! ## Claim C6 -/

/--
C6 (amended).  Of the three local transaction endpoints of `src/main.go`:
a body that fails to decode yields status 400 with no gateway call on all
three; the authorize endpoint additionally validates the presence of
`profileId`, `paymentProfileId` and `amount`, and the capture endpoint the
presence of `refTransId`, each responding 400 without a gateway call when
the field is missing; but the charge endpoint performs no required-field
validation at all — after a successful decode it always issues exactly one
gateway call, whatever the fields (including all-empty ones).
-/
theorem c6_validation :
    (∀ gw, chargeCustomerProfileHandler none gw =
      { status := 400, body := HttpBody.text "Invalid request body"
        gwCalls := [] })
    ∧ (∀ gw, authorizeCustomerProfileHandler none gw =
      { status := 400, body := HttpBody.text "Invalid request body"
        gwCalls := [] })
    ∧ (∀ gwEnv marshal dbExec,
      capturePriorAuthTransactionHandler none gwEnv marshal dbExec =
        { status := 400, body := HttpBody.text "Invalid request body"
          gwCalls := [], dbCalls := [] })
    ∧ (∀ gw (req : ChargeRequest),
      req.profileId = "" ∨ req.paymentProfileId = "" ∨ req.amount = "" →
      authorizeCustomerProfileHandler (some req) gw =
        { status := 400
          body := HttpBody.text
            "Missing required fields: profileId, paymentProfileId, or amount"
          gwCalls := [] })
    ∧ (∀ gwEnv marshal dbExec (req : CaptureRequest),
      req.refTransId = "" →
      capturePriorAuthTransactionHandler (some req) gwEnv marshal dbExec =
        { status := 400
          body := HttpBody.text "V2 Error: Missing required field: refTransId"
          gwCalls := [], dbCalls := [] })
    ∧ (∀ gw (req : ChargeRequest),
      (chargeCustomerProfileHandler (some req) gw).gwCalls =
        [{ profileId := req.profileId
           paymentProfileId := req.paymentProfileId
           amount := req.amount
           invoiceNumber := req.invoiceNumber
           transactionType := req.transactionType
           description := req.description }]) := by
  refine ⟨fun gw => rfl, fun gw => rfl, fun gwEnv marshal dbExec => rfl,
    ?_, ?_, ?_⟩
  · intro gw req h
    simp only [authorizeCustomerProfileHandler]
    rw [if_pos h]
  · intro gwEnv marshal dbExec req h
    simp only [capturePriorAuthTransactionHandler]
    rw [if_pos h]
  · intro gw req
    cases hgw : gw ⟨req.profileId, req.paymentProfileId, req.amount, req.invoiceNumber, req.transactionType, req.description⟩ with
    | error e => simp [chargeCustomerProfileHandler, hgw]
    | ok tx => simp [chargeCustomerProfileHandler, hgw]

/-- C6 witness: the amended statement applied at concrete runs — an
all-empty authorize request, an empty-`refTransId` capture request, and an
all-empty charge request. -/
theorem c6_witness :
    authorizeCustomerProfileHandler
        (some { profileId := "", paymentProfileId := "", amount := ""
                invoiceNumber := "", description := ""
                transactionType := "" })
        (fun _ _ _ => Except.error "E")
      = { status := 400
          body := HttpBody.text
            "Missing required fields: profileId, paymentProfileId, or amount"
          gwCalls := [] }
    ∧ capturePriorAuthTransactionHandler
        (some { refTransId := "", amount := "" })
        (fun _ _ => Except.error (MakeRequestError.sendRequest "x"))
        (fun _ => none) (fun _ => false)
      = { status := 400
          body := HttpBody.text "V2 Error: Missing required field: refTransId"
          gwCalls := [], dbCalls := [] }
    ∧ (chargeCustomerProfileHandler
        (some { profileId := "", paymentProfileId := "", amount := ""
                invoiceNumber := "", description := ""
                transactionType := "" })
        (fun _ => Except.error "E")).gwCalls
      = [{ profileId := "", paymentProfileId := "", amount := ""
           invoiceNumber := "", transactionType := "", description := "" }] :=
  ⟨c6_validation.2.2.2.1 (fun _ _ _ => Except.error "E")
      { profileId := "", paymentProfileId := "", amount := ""
        invoiceNumber := "", description := "", transactionType := "" }
      (Or.inl rfl),
   c6_validation.2.2.2.2.1
      (fun _ _ => Except.error (MakeRequestError.sendRequest "x"))
      (fun _ => none) (fun _ => false) { refTransId := "", amount := "" } rfl,
   c6_validation.2.2.2.2.2 (fun _ => Except.error "E")
      { profileId := "", paymentProfileId := "", amount := ""
        invoiceNumber := "", description := "", transactionType := "" }⟩

/--
C6 counterexample.  The claim as stated — every transaction endpoint
responds 4xx and issues no gateway call on a decoded body missing a required
field — is false for the charge endpoint: with every required field empty,
the handler still issues one gateway call and responds with the gateway
outcome (here 500), not a client error.
-/
theorem c6_counterexample :
    (chargeCustomerProfileHandler
        (some { profileId := "", paymentProfileId := "", amount := ""
                invoiceNumber := "", description := ""
                transactionType := "" })
        (fun _ => Except.error "E")).gwCalls
      = [{ profileId := "", paymentProfileId := "", amount := ""
           invoiceNumber := "", transactionType := "", description := "" }]
    ∧ (chargeCustomerProfileHandler
        (some { profileId := "", paymentProfileId := "", amount := ""
                invoiceNumber := "", description := ""
                transactionType := "" })
        (fun _ => Except.error "E")).status = 500 := ⟨rfl, rfl⟩
